import Mathlib

/-!
Shallow embedding of the ingestion core of the MAX Bot API Go client
(package maxbot): the update/attachment type-dispatch decoder
(api.go: bytesToProperUpdate, bytesToProperAttachment,
processMessageAttachments, updateTypeMap, attachmentTypeMap), the
long-poll request builder and transport error handling
(api.go: getUpdates; the client's requestReader in the transport file),
the retry wrapper (api.go: getUpdatesWithRetry), the retrieval loop
(api.go: GetUpdates) and the webhook handler (api.go: GetHandler).

The wire data structures live in the repository's schemes package,
which is not among the given source files; their shapes are modelled
from the spec where noted.  Machine integers (int, int64) are modelled
as Int: none of the verified paths can overflow.  Fallible Go code
returning (T, error) is modelled as Except ApiError T.
-/

namespace Maxbot

/-! ## Errors

Mirrors the distinguishable error values produced by the embedded code:
the typed errors of the client (TimeoutError with Op and Reason,
NetworkError, APIError) and each distinct fmt.Errorf wrapping site in
api.go.  Go compares the long-poll sentinel with pointer equality; the
embedding uses structural equality on these fields, which agrees with
pointer equality on every error value the embedded paths can construct
(the operation field of a fresh transport timeout is always
"METHOD path", never the sentinel's "long polling"). -/
inductive ApiError where
  /-- *TimeoutError with Op and Reason strings. -/
  | timeoutError (op : String) (reason : String)
  /-- *NetworkError for a non-timeout transport failure. -/
  | networkError (op : String)
  /-- *APIError: non-200 status with a decodable error body. -/
  | apiStatusError (code : Int) (message : String)
  /-- "HTTP %d: %s": non-200 status whose error body did not decode. -/
  | httpStatusError (code : Int)
  /-- ctx.Err() observed while waiting between retries. -/
  | ctxCanceled
  /-- "failed to unmarshal base update: %w". -/
  | unmarshalBaseUpdate
  /-- "unknown update type: %s" (the UnknownTypeError of the spec). -/
  | unknownUpdateType (tag : String)
  /-- "failed to unmarshal update of type %s: %w". -/
  | unmarshalUpdate (tag : String)
  /-- "failed to process message attachments: %w". -/
  | processAttachmentsFailed (err : ApiError)
  /-- "failed to unmarshal base attachment: %w". -/
  | unmarshalBaseAttachment
  /-- "failed to unmarshal attachment of type %s: %w". -/
  | unmarshalAttachment (tag : String)
  /-- "failed to process attachment: %w". -/
  | attachmentFailed (err : ApiError)
  /-- "failed to get updates: %w". -/
  | getUpdatesFailed (err : ApiError)
  /-- "failed to read response body: %w". -/
  | readBodyFailed
  /-- "failed to unmarshal updates: %w". -/
  | unmarshalUpdates
  /-- "failed after %d attempts: %w". -/
  | failedAfterAttempts (n : Nat) (err : ApiError)
deriving DecidableEq, Repr

/-! ## Attachments -/

/-- Attachment type tags (schemes.AttachmentType values; the closed set is
the domain of attachmentTypeMap in api.go). -/
abbrev AttachmentType := String

def attachmentAudio : AttachmentType := "audio"
def attachmentContact : AttachmentType := "contact"
def attachmentFile : AttachmentType := "file"
def attachmentImage : AttachmentType := "image"
def attachmentKeyboard : AttachmentType := "keyboard"
def attachmentLocation : AttachmentType := "location"
def attachmentShare : AttachmentType := "share"
def attachmentSticker : AttachmentType := "sticker"
def attachmentVideo : AttachmentType := "video"

/-- Domain of attachmentTypeMap (api.go lines 171-181). -/
def attachmentTypeMapKeys : List AttachmentType :=
  [attachmentAudio, attachmentContact, attachmentFile, attachmentImage,
   attachmentKeyboard, attachmentLocation, attachmentShare,
   attachmentSticker, attachmentVideo]

/-- A raw attachment payload (one json.RawMessage element of
MessageBody.RawAttachments).  `malformed` stands for bytes on which the
base json.Unmarshal into schemes.Attachment fails; `payload` stands for
bytes whose envelope decodes, carrying the type tag, the variant-specific
content, and whether the full typed unmarshal succeeds. -/
inductive RawAttachment where
  | malformed
  | payload (tag : AttachmentType) (content : String) (typedOk : Bool)
deriving DecidableEq, Repr

/-- A decoded attachment (schemes.AttachmentInterface).  `typed` covers the
nine known variants of attachmentTypeMap (audio, contact, file, image,
keyboard, location, share, sticker, video), identified by their tag.
`base` is the fallback schemes.Attachment returned for an unrecognized
tag.  Modelled from the spec: the schemes package is not among the given
sources; per the spec the fallback variant carries the original tag and
the original raw bytes, so `base` holds the tag and the whole raw
payload. -/
inductive AttachmentInterface where
  | typed (tag : AttachmentType) (content : String)
  | base (tag : AttachmentType) (raw : RawAttachment)
deriving DecidableEq, Repr

/-- bytesToProperAttachment (api.go lines 246-265): unmarshal the base
envelope, look the tag up in attachmentTypeMap, return the base
attachment for unknown tags, otherwise unmarshal the typed variant. -/
def bytesToProperAttachment (data : RawAttachment) :
    Except ApiError AttachmentInterface :=
  match data with
  | .malformed => .error .unmarshalBaseAttachment
  | .payload tag content typedOk =>
    if tag ∈ attachmentTypeMapKeys then
      if typedOk then .ok (.typed tag content)
      else .error (.unmarshalAttachment tag)
    else
      .ok (.base tag (.payload tag content typedOk))

/-- Whether a raw attachment decodes successfully. -/
def decodesOk (r : RawAttachment) : Bool :=
  (bytesToProperAttachment r).toOption.isSome

/-- The attachment a successfully decoding raw payload decodes to
(default value for the impossible failing case). -/
def decodeAttachmentD (r : RawAttachment) : AttachmentInterface :=
  (bytesToProperAttachment r).toOption.getD (.base "" .malformed)

/-! ## Updates -/

/-- Update type tags (schemes.UpdateType values; the closed set is the
domain of updateTypeMap in api.go lines 137-168). -/
abbrev UpdateType := String

def typeMessageCallback : UpdateType := "message_callback"
def typeMessageCreated : UpdateType := "message_created"
def typeMessageRemoved : UpdateType := "message_removed"
def typeMessageEdited : UpdateType := "message_edited"
def typeBotAdded : UpdateType := "bot_added"
def typeBotRemoved : UpdateType := "bot_removed"
def typeUserAdded : UpdateType := "user_added"
def typeUserRemoved : UpdateType := "user_removed"
def typeBotStarted : UpdateType := "bot_started"
def typeChatTitleChanged : UpdateType := "chat_title_changed"

/-- Domain of updateTypeMap (api.go lines 137-168). -/
def updateTypeMapKeys : List UpdateType :=
  [typeMessageCallback, typeMessageCreated, typeMessageRemoved,
   typeMessageEdited, typeBotAdded, typeBotRemoved, typeUserAdded,
   typeUserRemoved, typeBotStarted, typeChatTitleChanged]

/-- schemes.Update: the common envelope of every update.  Modelled from
the spec: a type tag, a timestamp, and a raw-debug-capture field
populated only when the debug flag is on. -/
structure Update where
  updateType : UpdateType
  timestamp : Int
  debugRaw : String
deriving DecidableEq, Repr

/-- schemes.MessageBody after decode.  Modelled from the spec: sequence
identifier, text, the raw (pre-decode) attachment payloads, and the
resolved attachment list filled in by the Attachment Resolver. -/
structure MessageBody where
  mid : String
  seq : Int
  text : String
  rawAttachments : Option (List RawAttachment)
  attachments : List AttachmentInterface
deriving DecidableEq, Repr

/-- schemes.Message.  Modelled from the spec: sender, recipient,
timestamp and body. -/
structure Message where
  senderUserId : Int
  recipientChatId : Int
  timestamp : Int
  body : MessageBody
deriving DecidableEq, Repr

/-- The tagged union of decoded updates (schemes.UpdateInterface): one
constructor per entry of updateTypeMap.  Modelled from the spec: the
message variants carry a Message; the other variants carry their
variant-specific fields, modelled as a key/value list. -/
inductive UpdateInterface where
  | messageCallback (update : Update) (fields : List (String × Int))
  | messageCreated (update : Update) (message : Message)
  | messageRemoved (update : Update) (fields : List (String × Int))
  | messageEdited (update : Update) (message : Message)
  | botAdded (update : Update) (fields : List (String × Int))
  | botRemoved (update : Update) (fields : List (String × Int))
  | userAdded (update : Update) (fields : List (String × Int))
  | userRemoved (update : Update) (fields : List (String × Int))
  | botStarted (update : Update) (fields : List (String × Int))
  | chatTitleChanged (update : Update) (fields : List (String × Int))
deriving DecidableEq, Repr

/-- The message body as it appears on the wire, before any resolution
(no resolved-attachments list). -/
structure WireMessageBody where
  mid : String
  seq : Int
  text : String
  rawAttachments : Option (List RawAttachment)
deriving DecidableEq, Repr

/-- The message object as it appears on the wire. -/
structure WireMessage where
  senderUserId : Int
  recipientChatId : Int
  timestamp : Int
  body : WireMessageBody
deriving DecidableEq, Repr

/-- One raw update payload (an element of UpdateList.Updates), as seen by
json.Unmarshal: the envelope fields, the optional message object, the
remaining variant-specific fields, and whether the full typed unmarshal
succeeds (`typedOk` is the "structurally valid for the typed variant"
bit; the envelope of a `payload` always decodes). -/
structure UpdatePayload where
  updateType : UpdateType
  timestamp : Int
  message : Option WireMessage
  fields : List (String × Int)
  typedOk : Bool
deriving DecidableEq, Repr

/-- Raw bytes of one update: either structurally invalid JSON (the base
unmarshal into schemes.Update fails) or a decodable payload. -/
inductive RawUpdate where
  | malformed
  | payload (p : UpdatePayload)
deriving DecidableEq, Repr

/-- json.Unmarshal of a wire message into a fresh schemes.Message: field
for field, with the resolved-attachments list starting empty; a missing
message object leaves the Go zero value. -/
def unmarshalWireMessage : Option WireMessage → Message
  | none =>
    { senderUserId := 0, recipientChatId := 0, timestamp := 0,
      body := { mid := "", seq := 0, text := "",
                rawAttachments := none, attachments := [] } }
  | some wm =>
    { senderUserId := wm.senderUserId,
      recipientChatId := wm.recipientChatId,
      timestamp := wm.timestamp,
      body := { mid := wm.body.mid, seq := wm.body.seq,
                text := wm.body.text,
                rawAttachments := wm.body.rawAttachments,
                attachments := [] } }

/-- The updateTypeMap lookup (api.go lines 195-199) fused with the typed
json.Unmarshal (api.go lines 201-204): for a tag in the closed set,
construct the matching variant and fill it from the payload; for any
other tag return none.  The if-chain follows the literal order of
updateTypeMap in the source. -/
def constructTypedUpdate (t : UpdateType) (p : UpdatePayload)
    (debugRaw : String) : Option UpdateInterface :=
  let env : Update :=
    { updateType := p.updateType, timestamp := p.timestamp,
      debugRaw := debugRaw }
  if t = typeMessageCallback then some (.messageCallback env p.fields)
  else if t = typeMessageCreated then
    some (.messageCreated env (unmarshalWireMessage p.message))
  else if t = typeMessageRemoved then some (.messageRemoved env p.fields)
  else if t = typeMessageEdited then
    some (.messageEdited env (unmarshalWireMessage p.message))
  else if t = typeBotAdded then some (.botAdded env p.fields)
  else if t = typeBotRemoved then some (.botRemoved env p.fields)
  else if t = typeUserAdded then some (.userAdded env p.fields)
  else if t = typeUserRemoved then some (.userRemoved env p.fields)
  else if t = typeBotStarted then some (.botStarted env p.fields)
  else if t = typeChatTitleChanged then
    some (.chatTitleChanged env p.fields)
  else none

/-- The attachment-resolution loop body shared by the two message cases
of processMessageAttachments (api.go lines 217-226 and 228-237): decode
each raw attachment in order, stopping at the first failure, which is
wrapped as "failed to process attachment: %w". -/
def resolveAttachments : List RawAttachment →
    Except ApiError (List AttachmentInterface)
  | [] => .ok []
  | r :: rest =>
    match bytesToProperAttachment r with
    | .error e => .error (.attachmentFailed e)
    | .ok a =>
      match resolveAttachments rest with
      | .error e => .error e
      | .ok l => .ok (a :: l)

/-- processMessageAttachments (api.go lines 214-243): for the
message-created and message-edited variants with a non-nil raw
attachment list, decode every raw attachment in order and append the
results to the body's attachment list; every other variant (and a nil
raw attachment list) passes through unchanged. -/
def processMessageAttachments (update : UpdateInterface) :
    Except ApiError UpdateInterface :=
  match update with
  | .messageCreated u m =>
    match m.body.rawAttachments with
    | none => .ok (.messageCreated u m)
    | some raws =>
      match resolveAttachments raws with
      | .error e => .error e
      | .ok l =>
        .ok (.messageCreated u
          { m with body := { m.body with attachments := m.body.attachments ++ l } })
  | .messageEdited u m =>
    match m.body.rawAttachments with
    | none => .ok (.messageEdited u m)
    | some raws =>
      match resolveAttachments raws with
      | .error e => .error e
      | .ok l =>
        .ok (.messageEdited u
          { m with body := { m.body with attachments := m.body.attachments ++ l } })
  | u => .ok u

/-- string(data): the raw bytes captured into DebugRaw when the debug
flag is on. -/
def rawUpdateString (data : RawUpdate) : String :=
  toString (repr data)

/-- bytesToProperUpdate (api.go lines 184-211): unmarshal the base
envelope, capture the raw bytes when debugging, look the tag up in
updateTypeMap (unknown tags are an error naming the tag), unmarshal the
typed variant, then run the attachment resolver, wrapping its failure. -/
def bytesToProperUpdate (debug : Bool) (data : RawUpdate) :
    Except ApiError UpdateInterface :=
  match data with
  | .malformed => .error .unmarshalBaseUpdate
  | .payload p =>
    let debugRaw := if debug then rawUpdateString (.payload p) else ""
    match constructTypedUpdate p.updateType p debugRaw with
    | none => .error (.unknownUpdateType p.updateType)
    | some u =>
      if p.typedOk then
        match processMessageAttachments u with
        | .error e => .error (.processAttachmentsFailed e)
        | .ok u2 => .ok u2
      else .error (.unmarshalUpdate p.updateType)

/-! ## Long-poll transport and getUpdates -/

/-- schemes.UpdateList: the body of a successful updates response.
Modelled from the spec: an `updates` array of raw envelopes and an
optional `marker`. -/
structure UpdateList where
  updates : List RawUpdate
  marker : Option Int
deriving DecidableEq, Repr

/-- UpdatesParams (api.go lines 268-273).  params.Timeout is a
time.Duration; the code only uses int(Timeout.Seconds()), modelled here
directly as whole seconds. -/
structure UpdatesParams where
  limit : Int
  timeoutSec : Int
  marker : Int
  types : List String
deriving DecidableEq, Repr

/-- The query built by getUpdates (api.go lines 281-294): limit, timeout
and marker are set only when positive; every entry of Types is added as
a repeated "types" key.  url.Values is a multimap; it is modelled as the
list of key/value pairs it holds. -/
def buildUpdatesQuery (params : UpdatesParams) : List (String × String) :=
  (if params.limit > 0 then [("limit", toString params.limit)] else []) ++
  (if params.timeoutSec > 0 then [("timeout", toString params.timeoutSec)] else []) ++
  (if params.marker > 0 then [("marker", toString params.marker)] else []) ++
  params.types.map (fun t => ("types", t))

/-- The body of a 200 response as getUpdates consumes it: io.ReadAll may
fail, the bytes may fail to unmarshal into UpdateList, or they parse. -/
inductive ResponseBody where
  | readFails
  | unparsable
  | updateList (ul : UpdateList)
deriving DecidableEq, Repr

/-- What httpClient.Do reports for one request: a url.Error whose
Timeout() is true, any other transport error, a non-200 status (whose
error body decodes into an API error message or does not), or a 200
with a body. -/
inductive TransportOutcome where
  | timeout
  | netError
  | httpStatus (code : Int) (apiMessage : Option String)
  | okBody (body : ResponseBody)
deriving DecidableEq, Repr

/-- The errLongPollTimeout sentinel (transport file, package-level var):
a *TimeoutError with Op "long polling" and Reason "request timeout
exceeded".  No code path in the repository ever returns this exact
value. -/
def errLongPollTimeout : ApiError :=
  .timeoutError "long polling" "request timeout exceeded"

/-- createTimeoutError (transport file, lines 111-116): builds a fresh
*TimeoutError. -/
def createTimeoutError (op reason : String) : ApiError :=
  .timeoutError op reason

/-- requestReader (transport file, lines 135-195), restricted to its
error dispatch: a transport timeout becomes a freshly created
TimeoutError with Op "METHOD path" and the client timeout interpolated
into Reason; other transport failures become NetworkError; a non-200
status becomes an APIError (or a bare "HTTP %d" error when its body does
not decode); a 200 passes the body through.  The query (with
access_token and v added) does not influence the outcome and is taken as
given. -/
def requestReader (method path : String) (_query : List (String × String))
    (clientTimeout : String) (outcome : TransportOutcome) :
    Except ApiError ResponseBody :=
  match outcome with
  | .timeout =>
    .error (createTimeoutError (method ++ " " ++ path)
      ("request timeout exceeded (" ++ clientTimeout ++ ")"))
  | .netError => .error (.networkError (method ++ " " ++ path))
  | .httpStatus code msg =>
    match msg with
    | none => .error (.httpStatusError code)
    | some m => .error (.apiStatusError code m)
  | .okBody b => .ok b

/-- getUpdates (api.go lines 276-321): build the query, issue the GET,
map the sentinel errLongPollTimeout to an empty update list, wrap any
other request error, then read and unmarshal the body.  Go's
`err == errLongPollTimeout` is pointer equality on the sentinel;
structural equality is used here and agrees on every reachable error
value (a fresh transport timeout always has Op "GET updates"). -/
def getUpdates (params : UpdatesParams) (clientTimeout : String)
    (outcome : TransportOutcome) : Except ApiError UpdateList :=
  match requestReader "GET" "updates" (buildUpdatesQuery params)
      clientTimeout outcome with
  | .error e =>
    if e = errLongPollTimeout then .ok { updates := [], marker := none }
    else .error (.getUpdatesFailed e)
  | .ok body =>
    match body with
    | .readFails => .error .readBodyFailed
    | .unparsable => .error .unmarshalUpdates
    | .updateList ul => .ok ul

/-! ## Retry with backoff -/

/-- maxRetries (api.go line 29). -/
def maxRetries : Nat := 3

/-- Observable behaviour of one getUpdatesWithRetry call: its result and
the backoff waits it performed, in seconds and in order. -/
structure RetryTrace where
  result : Except ApiError UpdateList
  waits : List Nat
deriving Repr

/-- The attempt loop of getUpdatesWithRetry (api.go lines 331-346).
`fetch` gives the result of the getUpdates call at each attempt index;
`canceled` tells whether ctx.Done() fires during the wait following that
attempt (the select at lines 340-344).  The wait after a failed attempt
is 1<<attempt seconds, and only attempts strictly before the last one
wait.  The last error is carried to the "failed after %d attempts"
wrapper. -/
def retryGo (fetch : Nat → Except ApiError UpdateList)
    (canceled : Nat → Bool) :
    Nat → Nat → List Nat → ApiError → RetryTrace
  | _, 0, waits, lastErr =>
    { result := .error (.failedAfterAttempts maxRetries lastErr),
      waits := waits }
  | attempt, remaining + 1, waits, _ =>
    match fetch attempt with
    | .ok ul => { result := .ok ul, waits := waits }
    | .error e =>
      if attempt < maxRetries - 1 then
        if canceled attempt then
          { result := .error .ctxCanceled, waits := waits }
        else
          retryGo fetch canceled (attempt + 1) remaining
            (waits ++ [2 ^ attempt]) e
      else retryGo fetch canceled (attempt + 1) remaining waits e

/-- getUpdatesWithRetry (api.go lines 323-349): up to maxRetries total
attempts starting at attempt 0 with no waits performed yet. -/
def getUpdatesWithRetry (fetch : Nat → Except ApiError UpdateList)
    (canceled : Nat → Bool) : RetryTrace :=
  retryGo fetch canceled 0 maxRetries [] (.networkError "")

/-! ## The retrieval loop (GetUpdates) -/

/-- The per-batch delivery of GetUpdates (api.go lines 384-395): each raw
update is decoded; a decode failure is skipped with `continue`; the
successfully decoded events are pushed onto the channel in order. -/
def deliverBatch (debug : Bool) (raws : List RawUpdate) :
    List UpdateInterface :=
  raws.filterMap (fun r => (bytesToProperUpdate debug r).toOption)

/-- The marker update of GetUpdates (api.go lines 397-399), executed
after a delivered batch: adopt the reported marker when present. -/
def markerAfterBatch (marker : Int) (ul : UpdateList) : Int :=
  match ul.marker with
  | some m => m
  | none => marker

/-- Observable behaviour of one inner drain of the retrieval loop. -/
structure DrainResult where
  /-- The cursor when the drain ends. -/
  marker : Int
  /-- The decoded events delivered to the channel, in order. -/
  delivered : List UpdateInterface
  /-- The cursor value after each processed (non-empty, successful)
  batch, in order. -/
  trace : List Int
  /-- Whether the drain ended because a batch fetch failed (the error is
  logged and the loop proceeds to the next tick). -/
  errored : Bool
deriving Repr

/-- The inner drain loop of GetUpdates (api.go lines 367-400): each
iteration calls getUpdatesWithRetry; an error logs and breaks; an empty
batch breaks (before the marker update); otherwise the batch is
delivered, the marker updated, and the loop repeats.  `script` is the
finite sequence of per-iteration fetch results the endpoint serves; a
script that runs out behaves like the empty-batch break. -/
def innerDrain (debug : Bool) :
    List (Except ApiError UpdateList) → Int → DrainResult
  | [], marker =>
    { marker := marker, delivered := [], trace := [], errored := false }
  | r :: rest, marker =>
    match r with
    | .error _ =>
      { marker := marker, delivered := [], trace := [], errored := true }
    | .ok ul =>
      if ul.updates.isEmpty then
        { marker := marker, delivered := [], trace := [], errored := false }
      else
        let m2 := markerAfterBatch marker ul
        let d := innerDrain debug rest m2
        { marker := d.marker,
          delivered := deliverBatch debug ul.updates ++ d.delivered,
          trace := m2 :: d.trace,
          errored := d.errored }

/-- The markers the endpoint reports on the successful non-empty batches
a drain actually processes (the batches before the first break). -/
def reportedMarkers : List (Except ApiError UpdateList) → List Int
  | [] => []
  | .error _ :: _ => []
  | .ok ul :: rest =>
    if ul.updates.isEmpty then []
    else
      match ul.marker with
      | some m => m :: reportedMarkers rest
      | none => reportedMarkers rest

/-- The outer ticker loop of GetUpdates (api.go lines 362-402): each tick
runs one inner drain starting from the current cursor; a drain that ends
in an error never ends the loop, which carries the cursor into the next
tick.  Returns the final cursor and everything delivered. -/
def retrievalTicks (debug : Bool) :
    List (List (Except ApiError UpdateList)) → Int →
    Int × List UpdateInterface
  | [], marker => (marker, [])
  | script :: rest, marker =>
    let d := innerDrain debug script marker
    let r := retrievalTicks debug rest d.marker
    (r.1, d.delivered ++ r.2)

/-! ## The webhook handler (GetHandler) -/

/-- The bounded updates channel the handler pushes into. -/
structure WebhookQueue where
  capacity : Nat
  items : List UpdateInterface
deriving Repr

/-- One inbound webhook request: the method and the outcome of
io.ReadAll on its body. -/
structure WebhookRequest where
  method : String
  bodyRead : Except Unit RawUpdate
deriving Repr

/-- GetHandler (api.go lines 409-435): 405 for any non-POST method, 400
when the body cannot be read, 400 when the body does not decode, then a
non-blocking channel send — 200 with the event enqueued when the channel
has room, 503 (leaving the queue untouched) when it is full.  Returns
the HTTP status written and the resulting queue. -/
def getHandler (debug : Bool) (req : WebhookRequest) (q : WebhookQueue) :
    Int × WebhookQueue :=
  if req.method ≠ "POST" then (405, q)
  else
    match req.bodyRead with
    | .error _ => (400, q)
    | .ok data =>
      match bytesToProperUpdate debug data with
      | .error _ => (400, q)
      | .ok u =>
        if q.items.length < q.capacity then
          (200, { q with items := q.items ++ [u] })
        else (503, q)

/-! ## Projections used by the claims -/

/-- The tag corresponding to an UpdateInterface value's concrete
constructor (the Go struct type the decoder instantiated). -/
def variantTag : UpdateInterface → UpdateType
  | .messageCallback .. => typeMessageCallback
  | .messageCreated .. => typeMessageCreated
  | .messageRemoved .. => typeMessageRemoved
  | .messageEdited .. => typeMessageEdited
  | .botAdded .. => typeBotAdded
  | .botRemoved .. => typeBotRemoved
  | .userAdded .. => typeUserAdded
  | .userRemoved .. => typeUserRemoved
  | .botStarted .. => typeBotStarted
  | .chatTitleChanged .. => typeChatTitleChanged

/-- The embedded schemes.Update envelope of a decoded update. -/
def updateEnvelope : UpdateInterface → Update
  | .messageCallback u _ => u
  | .messageCreated u _ => u
  | .messageRemoved u _ => u
  | .messageEdited u _ => u
  | .botAdded u _ => u
  | .botRemoved u _ => u
  | .userAdded u _ => u
  | .userRemoved u _ => u
  | .botStarted u _ => u
  | .chatTitleChanged u _ => u

/-- The message body carried by a decoded update, when its variant has
one (only message-created and message-edited do). -/
def variantMessage : UpdateInterface → Option Message
  | .messageCreated _ m => some m
  | .messageEdited _ m => some m
  | _ => none

/-- The variant-specific fields of the non-message variants. -/
def variantFields : UpdateInterface → List (String × Int)
  | .messageCallback _ f => f
  | .messageCreated _ _ => []
  | .messageRemoved _ f => f
  | .messageEdited _ _ => []
  | .botAdded _ f => f
  | .botRemoved _ f => f
  | .userAdded _ f => f
  | .userRemoved _ f => f
  | .botStarted _ f => f
  | .chatTitleChanged _ f => f

/-- The raw attachments a payload carries in its message body. -/
def wirePayloadRawAttachments (p : UpdatePayload) : List RawAttachment :=
  match p.message with
  | some wm => wm.body.rawAttachments.getD []
  | none => []

/-- The fully resolved message a well-formed message payload decodes to:
the wire fields, with the resolved attachment list appended. -/
def resolveWireMessage (om : Option WireMessage) : Message :=
  let m := unmarshalWireMessage om
  match m.body.rawAttachments with
  | none => m
  | some raws =>
    { m with body :=
        { m.body with
          attachments := m.body.attachments ++ raws.map decodeAttachmentD } }

/-- A message body with the decodes of the given raw attachments appended
to its resolved attachment list. -/
def appendResolved (m : Message) (raws : List RawAttachment) : Message :=
  { m with body :=
      { m.body with
        attachments := m.body.attachments ++ raws.map decodeAttachmentD } }

/-- A decoded update is fully resolved: whenever its variant carries a
message body, that body's resolved attachments are exactly the decodes
of its raw attachments, all of which decoded successfully. -/
def resolvedOk (u : UpdateInterface) : Prop :=
  ∀ m, variantMessage u = some m →
    m.body.attachments = (m.body.rawAttachments.getD []).map decodeAttachmentD ∧
    ∀ r ∈ m.body.rawAttachments.getD [], decodesOk r = true

/-! ## Helper lemmas -/

/-- When every raw attachment decodes, the resolver succeeds with their
decodes in order. -/
theorem resolveAttachments_ok_of_all (raws : List RawAttachment)
    (h : ∀ r ∈ raws, decodesOk r = true) :
    resolveAttachments raws = .ok (raws.map decodeAttachmentD) := by
  induction raws with
  | nil => rfl
  | cons r rest ih =>
    have hr := h r (List.mem_cons_self r rest)
    cases hba : bytesToProperAttachment r with
    | error e => simp [decodesOk, hba, Except.toOption] at hr
    | ok a =>
      have hd : decodeAttachmentD r = a := by
        simp [decodeAttachmentD, hba, Except.toOption]
      simp [resolveAttachments, hba,
        ih (fun x hx => h x (List.mem_cons_of_mem _ hx)), hd]

/-- Conversely, a successful resolution means every raw attachment
decoded and the result is their decodes in order. -/
theorem resolveAttachments_ok_inv (raws : List RawAttachment)
    (l : List AttachmentInterface)
    (h : resolveAttachments raws = .ok l) :
    l = raws.map decodeAttachmentD ∧ ∀ r ∈ raws, decodesOk r = true := by
  induction raws generalizing l with
  | nil =>
    simp only [resolveAttachments, Except.ok.injEq] at h
    simp [← h]
  | cons r rest ih =>
    cases hba : bytesToProperAttachment r with
    | error e => simp [resolveAttachments, hba] at h
    | ok a =>
      cases hrest : resolveAttachments rest with
      | error e => simp [resolveAttachments, hba, hrest] at h
      | ok l2 =>
        simp only [resolveAttachments, hba, hrest, Except.ok.injEq] at h
        obtain ⟨h1, _⟩ := ih l2 hrest
        constructor
        · rw [← h, h1]
          simp [decodeAttachmentD, hba, Except.toOption]
        · intro x hx
          rcases List.mem_cons.mp hx with hx | hx
          · subst hx; simp [decodesOk, hba, Except.toOption]
          · exact (ih l2 hrest).2 x hx

/-- When some raw attachment fails to decode, the resolver fails with the
first such failure, wrapped. -/
theorem resolveAttachments_err (raws : List RawAttachment)
    (h : ∃ r ∈ raws, decodesOk r = false) :
    ∃ r e, r ∈ raws ∧ bytesToProperAttachment r = .error e ∧
      resolveAttachments raws = .error (.attachmentFailed e) := by
  induction raws with
  | nil => simp at h
  | cons r rest ih =>
    cases hba : bytesToProperAttachment r with
    | error e =>
      exact ⟨r, e, List.mem_cons_self r rest, hba,
        by simp [resolveAttachments, hba]⟩
    | ok a =>
      obtain ⟨x, hx, hdx⟩ := h
      rcases List.mem_cons.mp hx with hx | hx
      · subst hx; simp [decodesOk, hba, Except.toOption] at hdx
      · obtain ⟨r0, e0, hmem, hr0, hres⟩ := ih ⟨x, hx, hdx⟩
        exact ⟨r0, e0, List.mem_cons_of_mem _ hmem, hr0,
          by simp [resolveAttachments, hba, hres]⟩

/-- A freshly unmarshalled wire message has an empty resolved-attachments
list. -/
theorem unmarshalWireMessage_attachments (om : Option WireMessage) :
    (unmarshalWireMessage om).body.attachments = [] := by
  cases om <;> rfl

/-- The raw attachments of a payload, through unmarshalling. -/
theorem wirePayloadRawAttachments_eq (p : UpdatePayload) :
    (unmarshalWireMessage p.message).body.rawAttachments.getD [] =
      wirePayloadRawAttachments p := by
  cases hp : p.message <;> simp [unmarshalWireMessage, wirePayloadRawAttachments, hp]

/-- When every raw attachment of the wire message decodes, the resolver
step of a message-created decode succeeds, producing the fully resolved
message. -/
theorem processMessageAttachments_created_ok (env : Update)
    (om : Option WireMessage)
    (h : ∀ r ∈ (unmarshalWireMessage om).body.rawAttachments.getD [],
      decodesOk r = true) :
    processMessageAttachments (.messageCreated env (unmarshalWireMessage om)) =
      .ok (.messageCreated env (resolveWireMessage om)) := by
  cases om with
  | none => simp [processMessageAttachments, unmarshalWireMessage, resolveWireMessage]
  | some wm =>
    cases hra : wm.body.rawAttachments with
    | none =>
      simp [processMessageAttachments, unmarshalWireMessage,
        resolveWireMessage, hra]
    | some raws =>
      have h2 : ∀ r ∈ raws, decodesOk r = true := by
        intro r hr
        apply h
        simp [unmarshalWireMessage, hra]
        exact hr
      simp [processMessageAttachments, unmarshalWireMessage,
        resolveWireMessage, hra, resolveAttachments_ok_of_all raws h2]

/-- Same as processMessageAttachments_created_ok for message-edited. -/
theorem processMessageAttachments_edited_ok (env : Update)
    (om : Option WireMessage)
    (h : ∀ r ∈ (unmarshalWireMessage om).body.rawAttachments.getD [],
      decodesOk r = true) :
    processMessageAttachments (.messageEdited env (unmarshalWireMessage om)) =
      .ok (.messageEdited env (resolveWireMessage om)) := by
  cases om with
  | none => simp [processMessageAttachments, unmarshalWireMessage, resolveWireMessage]
  | some wm =>
    cases hra : wm.body.rawAttachments with
    | none =>
      simp [processMessageAttachments, unmarshalWireMessage,
        resolveWireMessage, hra]
    | some raws =>
      have h2 : ∀ r ∈ raws, decodesOk r = true := by
        intro r hr
        apply h
        simp [unmarshalWireMessage, hra]
        exact hr
      simp [processMessageAttachments, unmarshalWireMessage,
        resolveWireMessage, hra, resolveAttachments_ok_of_all raws h2]

/-- A tag outside updateTypeMap makes the lookup fail. -/
theorem constructTypedUpdate_eq_none (t : UpdateType) (p : UpdatePayload)
    (dr : String) (h : t ∉ updateTypeMapKeys) :
    constructTypedUpdate t p dr = none := by
  simp only [updateTypeMapKeys, List.mem_cons, List.not_mem_nil, or_false,
    not_or] at h
  obtain ⟨h1, h2, h3, h4, h5, h6, h7, h8, h9, h10⟩ := h
  simp [constructTypedUpdate, h1, h2, h3, h4, h5, h6, h7, h8, h9, h10]

set_option maxHeartbeats 1000000 in
/-- Any message body produced by the typed unmarshal step comes from
unmarshalWireMessage, so its resolved-attachments list starts empty. -/
theorem constructTypedUpdate_message_shape (t : UpdateType)
    (p : UpdatePayload) (dr : String) (u : UpdateInterface)
    (h : constructTypedUpdate t p dr = some u) :
    ∀ m, variantMessage u = some m → m = unmarshalWireMessage p.message := by
  simp only [constructTypedUpdate] at h
  repeat' split at h
  all_goals
    first
      | (injection h with h
         subst h
         intro m hm
         simp only [variantMessage, Option.some.injEq] at hm
         first
           | exact hm.symm
           | exact Option.noConfusion hm)
      | exact Option.noConfusion h

/-- The attachment resolver preserves full resolution: a successful
output is either the unchanged input (no message body or no raw
attachments) or a message whose attachments have been fully resolved. -/
theorem processMessageAttachments_resolvedOk (u0 u : UpdateInterface)
    (hshape : ∀ m, variantMessage u0 = some m → m.body.attachments = [])
    (h : processMessageAttachments u0 = .ok u) : resolvedOk u := by
  cases u0 with
  | messageCreated env m =>
    have hm0 : m.body.attachments = [] := hshape m (by simp [variantMessage])
    cases hra : m.body.rawAttachments with
    | none =>
      simp only [processMessageAttachments, hra, Except.ok.injEq] at h
      subst h
      intro m2 hm2
      simp only [variantMessage, Option.some.injEq] at hm2
      subst hm2
      simp [hra, hm0]
    | some raws =>
      cases hres : resolveAttachments raws with
      | error e => simp [processMessageAttachments, hra, hres] at h
      | ok l =>
        obtain ⟨hl, hall⟩ := resolveAttachments_ok_inv raws l hres
        simp only [processMessageAttachments, hra, hres, Except.ok.injEq] at h
        subst h
        intro m2 hm2
        simp only [variantMessage, Option.some.injEq] at hm2
        subst hm2
        refine ⟨by simp [hra, hm0, hl], ?_⟩
        simpa [hra] using hall
  | messageEdited env m =>
    have hm0 : m.body.attachments = [] := hshape m (by simp [variantMessage])
    cases hra : m.body.rawAttachments with
    | none =>
      simp only [processMessageAttachments, hra, Except.ok.injEq] at h
      subst h
      intro m2 hm2
      simp only [variantMessage, Option.some.injEq] at hm2
      subst hm2
      simp [hra, hm0]
    | some raws =>
      cases hres : resolveAttachments raws with
      | error e => simp [processMessageAttachments, hra, hres] at h
      | ok l =>
        obtain ⟨hl, hall⟩ := resolveAttachments_ok_inv raws l hres
        simp only [processMessageAttachments, hra, hres, Except.ok.injEq] at h
        subst h
        intro m2 hm2
        simp only [variantMessage, Option.some.injEq] at hm2
        subst hm2
        refine ⟨by simp [hra, hm0, hl], ?_⟩
        simpa [hra] using hall
  | messageCallback env f =>
    simp only [processMessageAttachments, Except.ok.injEq] at h
    subst h; intro m2 hm2; simp [variantMessage] at hm2
  | messageRemoved env f =>
    simp only [processMessageAttachments, Except.ok.injEq] at h
    subst h; intro m2 hm2; simp [variantMessage] at hm2
  | botAdded env f =>
    simp only [processMessageAttachments, Except.ok.injEq] at h
    subst h; intro m2 hm2; simp [variantMessage] at hm2
  | botRemoved env f =>
    simp only [processMessageAttachments, Except.ok.injEq] at h
    subst h; intro m2 hm2; simp [variantMessage] at hm2
  | userAdded env f =>
    simp only [processMessageAttachments, Except.ok.injEq] at h
    subst h; intro m2 hm2; simp [variantMessage] at hm2
  | userRemoved env f =>
    simp only [processMessageAttachments, Except.ok.injEq] at h
    subst h; intro m2 hm2; simp [variantMessage] at hm2
  | botStarted env f =>
    simp only [processMessageAttachments, Except.ok.injEq] at h
    subst h; intro m2 hm2; simp [variantMessage] at hm2
  | chatTitleChanged env f =>
    simp only [processMessageAttachments, Except.ok.injEq] at h
    subst h; intro m2 hm2; simp [variantMessage] at hm2

/-- Every update the decoder returns successfully is fully resolved. -/
theorem bytesToProperUpdate_ok_resolved (debug : Bool) (data : RawUpdate)
    (u : UpdateInterface) (h : bytesToProperUpdate debug data = .ok u) :
    resolvedOk u := by
  cases data with
  | malformed => simp [bytesToProperUpdate] at h
  | payload p =>
    simp only [bytesToProperUpdate] at h
    cases hc : constructTypedUpdate p.updateType p
        (if debug then rawUpdateString (.payload p) else "") with
    | none => rw [hc] at h; exact Except.noConfusion h
    | some u0 =>
      rw [hc] at h
      cases hok : p.typedOk with
      | false => rw [hok] at h; simp at h
      | true =>
        rw [hok] at h
        simp only [if_true] at h
        cases hpm : processMessageAttachments u0 with
        | error e => rw [hpm] at h; exact Except.noConfusion h
        | ok u2 =>
          rw [hpm] at h
          injection h with h
          subst h
          refine processMessageAttachments_resolvedOk u0 u2 ?_ hpm
          intro m hm
          rw [constructTypedUpdate_message_shape _ _ _ _ hc m hm]
          exact unmarshalWireMessage_attachments p.message

/-! ## Concrete values used by witnesses and counterexamples -/

/-- A message with one known raw attachment, for the C7 witness. -/
def c7Body : Message :=
  { senderUserId := 100, recipientChatId := 1, timestamp := 0,
    body := { mid := "mid1", seq := 1, text := "hello",
              rawAttachments := some [.payload "image" "img" true],
              attachments := [] } }

/-- A wire message with one malformed raw attachment, for the C8
witness. -/
def c8Wm : WireMessage :=
  { senderUserId := 100, recipientChatId := 1, timestamp := 0,
    body := { mid := "mid1", seq := 1, text := "hello",
              rawAttachments := some [.malformed] } }

/-- A message-created payload carrying c8Wm, for the C8 witness. -/
def c8Payload : UpdatePayload :=
  { updateType := "message_created", timestamp := 0, message := some c8Wm,
    fields := [], typedOk := true }

/-! ## Claims -/

/-- Claim C4: for every attachment payload whose envelope decodes but
whose type tag is outside the closed attachment set,
bytesToProperAttachment never returns an error and yields the fallback
variant with the original tag and the original raw bytes preserved. -/
theorem c4_unknown_attachment_fallback (tag : AttachmentType)
    (content : String) (typedOk : Bool)
    (h : tag ∉ attachmentTypeMapKeys) :
    bytesToProperAttachment (.payload tag content typedOk) =
      .ok (.base tag (.payload tag content typedOk)) := by
  simp [bytesToProperAttachment, h]

/-- Witness for C4 at the tag "unknown". -/
theorem c4_unknown_attachment_fallback_witness :
    ("unknown" ∉ attachmentTypeMapKeys) ∧
    bytesToProperAttachment (.payload "unknown" "data" true) =
      .ok (.base "unknown" (.payload "unknown" "data" true)) :=
  ⟨by decide, c4_unknown_attachment_fallback "unknown" "data" true (by decide)⟩

/-- Claim C7: a message-created or message-edited event whose body
carries N raw attachment payloads that all decode gains exactly those N
decoded attachments, appended in original order to the body's resolved
attachment list, and every variant without a message body passes through
the resolver unchanged with no error. -/
theorem c7_attachment_resolution (u : Update) (m : Message)
    (raws : List RawAttachment)
    (hraw : m.body.rawAttachments = some raws)
    (hdec : ∀ r ∈ raws, decodesOk r = true) :
    processMessageAttachments (.messageCreated u m) =
      .ok (.messageCreated u (appendResolved m raws)) ∧
    processMessageAttachments (.messageEdited u m) =
      .ok (.messageEdited u (appendResolved m raws)) ∧
    (raws.map decodeAttachmentD).length = raws.length ∧
    ∀ v : UpdateInterface, variantMessage v = none →
      processMessageAttachments v = .ok v := by
  refine ⟨?_, ?_, by simp, ?_⟩
  · simp [processMessageAttachments, hraw,
      resolveAttachments_ok_of_all raws hdec, appendResolved]
  · simp [processMessageAttachments, hraw,
      resolveAttachments_ok_of_all raws hdec, appendResolved]
  · intro v hv
    cases v <;> simp [variantMessage] at hv <;>
      simp [processMessageAttachments]

/-- Witness for C7: one known image attachment resolves to one decoded
attachment. -/
theorem c7_attachment_resolution_witness :
    (c7Body.body.rawAttachments = some [.payload "image" "img" true]) ∧
    (∀ r ∈ [RawAttachment.payload "image" "img" true], decodesOk r = true) ∧
    processMessageAttachments
        (.messageCreated { updateType := "message_created", timestamp := 0, debugRaw := "" } c7Body) =
      .ok (.messageCreated { updateType := "message_created", timestamp := 0, debugRaw := "" }
        (appendResolved c7Body [.payload "image" "img" true])) :=
  ⟨rfl, by decide,
    (c7_attachment_resolution _ c7Body [.payload "image" "img" true] rfl (by decide)).1⟩

/-- Claim C8: if any raw attachment of a message payload fails to decode,
the whole update decode fails with that error wrapped with context, a
successful update is never returned for it, and in general every update
the decoder does return is fully resolved. -/
theorem c8_all_or_nothing (p : UpdatePayload) (wm : WireMessage)
    (raws : List RawAttachment)
    (htag : p.updateType = typeMessageCreated ∨ p.updateType = typeMessageEdited)
    (hok : p.typedOk = true)
    (hwm : p.message = some wm)
    (hraws : wm.body.rawAttachments = some raws)
    (hbad : ∃ r ∈ raws, decodesOk r = false) :
    (∃ r e, r ∈ raws ∧ bytesToProperAttachment r = .error e ∧
      bytesToProperUpdate false (.payload p) =
        .error (.processAttachmentsFailed (.attachmentFailed e))) ∧
    (∀ u, bytesToProperUpdate false (.payload p) ≠ .ok u) ∧
    (∀ (q : RawUpdate) (u : UpdateInterface),
      bytesToProperUpdate false q = .ok u → resolvedOk u) := by
  obtain ⟨r0, e0, hmem, hr0, hres⟩ := resolveAttachments_err raws hbad
  have hdec : bytesToProperUpdate false (.payload p) =
      .error (.processAttachmentsFailed (.attachmentFailed e0)) := by
    rcases htag with h | h
    · simp [bytesToProperUpdate, constructTypedUpdate, h, hok, hwm, hraws,
        processMessageAttachments, unmarshalWireMessage, hres,
        typeMessageCallback, typeMessageCreated]
    · simp [bytesToProperUpdate, constructTypedUpdate, h, hok, hwm, hraws,
        processMessageAttachments, unmarshalWireMessage, hres,
        typeMessageCallback, typeMessageCreated, typeMessageRemoved,
        typeMessageEdited]
  refine ⟨⟨r0, e0, hmem, hr0, hdec⟩, ?_, ?_⟩
  · intro u hu
    rw [hdec] at hu
    exact Except.noConfusion hu
  · exact fun q u hqu => bytesToProperUpdate_ok_resolved false q u hqu

/-- Witness for C8 at a message-created payload with one malformed
attachment. -/
theorem c8_all_or_nothing_witness :
    (c8Payload.updateType = typeMessageCreated ∨
      c8Payload.updateType = typeMessageEdited) ∧
    (∃ r ∈ [RawAttachment.malformed], decodesOk r = false) ∧
    ((∃ r e, r ∈ [RawAttachment.malformed] ∧
        bytesToProperAttachment r = .error e ∧
        bytesToProperUpdate false (.payload c8Payload) =
          .error (.processAttachmentsFailed (.attachmentFailed e))) ∧
      (∀ u, bytesToProperUpdate false (.payload c8Payload) ≠ .ok u) ∧
      (∀ (q : RawUpdate) (u : UpdateInterface),
        bytesToProperUpdate false q = .ok u → resolvedOk u)) :=
  ⟨Or.inl rfl, by decide,
    c8_all_or_nothing c8Payload c8Wm [.malformed] (Or.inl rfl) rfl rfl rfl
      (by decide)⟩

/-- Claim C5: for every tag in the closed update set, decoding a
well-formed envelope bearing that tag succeeds and yields a variant
whose concrete constructor matches the tag, whose envelope carries the
payload's tag and timestamp (so the envelope tag always matches the
variant decoded), whose message (for the message variants) is the
payload's wire message fully resolved, and whose variant-specific fields
(for the other variants) equal the payload's fields. -/
theorem c5_closed_set_decode (p : UpdatePayload)
    (hmem : p.updateType ∈ updateTypeMapKeys)
    (hok : p.typedOk = true)
    (hdec : ∀ r ∈ wirePayloadRawAttachments p, decodesOk r = true) :
    ∃ u, bytesToProperUpdate false (.payload p) = .ok u ∧
      variantTag u = p.updateType ∧
      updateEnvelope u =
        { updateType := p.updateType, timestamp := p.timestamp, debugRaw := "" } ∧
      ((p.updateType = typeMessageCreated ∨ p.updateType = typeMessageEdited) →
        variantMessage u = some (resolveWireMessage p.message)) ∧
      ((p.updateType ≠ typeMessageCreated ∧ p.updateType ≠ typeMessageEdited) →
        variantMessage u = none ∧ variantFields u = p.fields) := by
  have hdec2 : ∀ r ∈ (unmarshalWireMessage p.message).body.rawAttachments.getD [],
      decodesOk r = true := by
    rw [wirePayloadRawAttachments_eq]
    exact hdec
  simp only [updateTypeMapKeys, List.mem_cons, List.not_mem_nil, or_false] at hmem
  rcases hmem with h | h | h | h | h | h | h | h | h | h
  · refine ⟨.messageCallback
        { updateType := typeMessageCallback, timestamp := p.timestamp, debugRaw := "" } p.fields,
      ?_, by simp [variantTag, h], by simp [updateEnvelope, h], ?_, ?_⟩
    · simp [bytesToProperUpdate, constructTypedUpdate, h, hok,
        processMessageAttachments, typeMessageCallback, typeMessageCreated,
        typeMessageRemoved, typeMessageEdited, typeBotAdded, typeBotRemoved,
        typeUserAdded, typeUserRemoved, typeBotStarted, typeChatTitleChanged]
    · intro hc
      rcases hc with hc | hc <;> rw [h] at hc <;>
        simp [typeMessageCallback, typeMessageCreated, typeMessageEdited] at hc
    · intro _
      simp [variantMessage, variantFields]
  · refine ⟨.messageCreated
        { updateType := typeMessageCreated, timestamp := p.timestamp, debugRaw := "" }
        (resolveWireMessage p.message),
      ?_, by simp [variantTag, h], by simp [updateEnvelope, h], ?_, ?_⟩
    · have hp := processMessageAttachments_created_ok
        { updateType := typeMessageCreated, timestamp := p.timestamp, debugRaw := "" }
        p.message hdec2
      simp only [typeMessageCreated] at hp
      simp [bytesToProperUpdate, constructTypedUpdate, h, hok, hp,
        typeMessageCallback, typeMessageCreated]
    · intro _
      simp [variantMessage]
    · intro hc
      exact absurd h hc.1
  · refine ⟨.messageRemoved
        { updateType := typeMessageRemoved, timestamp := p.timestamp, debugRaw := "" } p.fields,
      ?_, by simp [variantTag, h], by simp [updateEnvelope, h], ?_, ?_⟩
    · simp [bytesToProperUpdate, constructTypedUpdate, h, hok,
        processMessageAttachments, typeMessageCallback, typeMessageCreated,
        typeMessageRemoved]
    · intro hc
      rcases hc with hc | hc <;> rw [h] at hc <;>
        simp [typeMessageRemoved, typeMessageCreated, typeMessageEdited] at hc
    · intro _
      simp [variantMessage, variantFields]
  · refine ⟨.messageEdited
        { updateType := typeMessageEdited, timestamp := p.timestamp, debugRaw := "" }
        (resolveWireMessage p.message),
      ?_, by simp [variantTag, h], by simp [updateEnvelope, h], ?_, ?_⟩
    · have hp := processMessageAttachments_edited_ok
        { updateType := typeMessageEdited, timestamp := p.timestamp, debugRaw := "" }
        p.message hdec2
      simp only [typeMessageEdited] at hp
      simp [bytesToProperUpdate, constructTypedUpdate, h, hok, hp,
        typeMessageCallback, typeMessageCreated, typeMessageRemoved,
        typeMessageEdited]
    · intro _
      simp [variantMessage]
    · intro hc
      exact absurd h hc.2
  · refine ⟨.botAdded
        { updateType := typeBotAdded, timestamp := p.timestamp, debugRaw := "" } p.fields,
      ?_, by simp [variantTag, h], by simp [updateEnvelope, h], ?_, ?_⟩
    · simp [bytesToProperUpdate, constructTypedUpdate, h, hok,
        processMessageAttachments, typeMessageCallback, typeMessageCreated,
        typeMessageRemoved, typeMessageEdited, typeBotAdded]
    · intro hc
      rcases hc with hc | hc <;> rw [h] at hc <;>
        simp [typeBotAdded, typeMessageCreated, typeMessageEdited] at hc
    · intro _
      simp [variantMessage, variantFields]
  · refine ⟨.botRemoved
        { updateType := typeBotRemoved, timestamp := p.timestamp, debugRaw := "" } p.fields,
      ?_, by simp [variantTag, h], by simp [updateEnvelope, h], ?_, ?_⟩
    · simp [bytesToProperUpdate, constructTypedUpdate, h, hok,
        processMessageAttachments, typeMessageCallback, typeMessageCreated,
        typeMessageRemoved, typeMessageEdited, typeBotAdded, typeBotRemoved]
    · intro hc
      rcases hc with hc | hc <;> rw [h] at hc <;>
        simp [typeBotRemoved, typeMessageCreated, typeMessageEdited] at hc
    · intro _
      simp [variantMessage, variantFields]
  · refine ⟨.userAdded
        { updateType := typeUserAdded, timestamp := p.timestamp, debugRaw := "" } p.fields,
      ?_, by simp [variantTag, h], by simp [updateEnvelope, h], ?_, ?_⟩
    · simp [bytesToProperUpdate, constructTypedUpdate, h, hok,
        processMessageAttachments, typeMessageCallback, typeMessageCreated,
        typeMessageRemoved, typeMessageEdited, typeBotAdded, typeBotRemoved,
        typeUserAdded]
    · intro hc
      rcases hc with hc | hc <;> rw [h] at hc <;>
        simp [typeUserAdded, typeMessageCreated, typeMessageEdited] at hc
    · intro _
      simp [variantMessage, variantFields]
  · refine ⟨.userRemoved
        { updateType := typeUserRemoved, timestamp := p.timestamp, debugRaw := "" } p.fields,
      ?_, by simp [variantTag, h], by simp [updateEnvelope, h], ?_, ?_⟩
    · simp [bytesToProperUpdate, constructTypedUpdate, h, hok,
        processMessageAttachments, typeMessageCallback, typeMessageCreated,
        typeMessageRemoved, typeMessageEdited, typeBotAdded, typeBotRemoved,
        typeUserAdded, typeUserRemoved]
    · intro hc
      rcases hc with hc | hc <;> rw [h] at hc <;>
        simp [typeUserRemoved, typeMessageCreated, typeMessageEdited] at hc
    · intro _
      simp [variantMessage, variantFields]
  · refine ⟨.botStarted
        { updateType := typeBotStarted, timestamp := p.timestamp, debugRaw := "" } p.fields,
      ?_, by simp [variantTag, h], by simp [updateEnvelope, h], ?_, ?_⟩
    · simp [bytesToProperUpdate, constructTypedUpdate, h, hok,
        processMessageAttachments, typeMessageCallback, typeMessageCreated,
        typeMessageRemoved, typeMessageEdited, typeBotAdded, typeBotRemoved,
        typeUserAdded, typeUserRemoved, typeBotStarted]
    · intro hc
      rcases hc with hc | hc <;> rw [h] at hc <;>
        simp [typeBotStarted, typeMessageCreated, typeMessageEdited] at hc
    · intro _
      simp [variantMessage, variantFields]
  · refine ⟨.chatTitleChanged
        { updateType := typeChatTitleChanged, timestamp := p.timestamp, debugRaw := "" } p.fields,
      ?_, by simp [variantTag, h], by simp [updateEnvelope, h], ?_, ?_⟩
    · simp [bytesToProperUpdate, constructTypedUpdate, h, hok,
        processMessageAttachments, typeMessageCallback, typeMessageCreated,
        typeMessageRemoved, typeMessageEdited, typeBotAdded, typeBotRemoved,
        typeUserAdded, typeUserRemoved, typeBotStarted, typeChatTitleChanged]
    · intro hc
      rcases hc with hc | hc <;> rw [h] at hc <;>
        simp [typeChatTitleChanged, typeMessageCreated, typeMessageEdited] at hc
    · intro _
      simp [variantMessage, variantFields]

/-- A well-formed message-created payload with one known attachment, for
the C5 witness. -/
def c5Payload : UpdatePayload :=
  { updateType := "message_created", timestamp := 1234567890,
    message := some
      { senderUserId := 100, recipientChatId := 1, timestamp := 1234567890,
        body := { mid := "mid1", seq := 1, text := "hello",
                  rawAttachments := some [.payload "image" "img" true] } },
    fields := [], typedOk := true }

/-- Witness for C5 at a concrete message-created payload. -/
theorem c5_closed_set_decode_witness :
    (c5Payload.updateType ∈ updateTypeMapKeys) ∧
    (∀ r ∈ wirePayloadRawAttachments c5Payload, decodesOk r = true) ∧
    (∃ u, bytesToProperUpdate false (.payload c5Payload) = .ok u ∧
      variantTag u = c5Payload.updateType ∧
      updateEnvelope u =
        { updateType := c5Payload.updateType, timestamp := c5Payload.timestamp, debugRaw := "" } ∧
      ((c5Payload.updateType = typeMessageCreated ∨ c5Payload.updateType = typeMessageEdited) →
        variantMessage u = some (resolveWireMessage c5Payload.message)) ∧
      ((c5Payload.updateType ≠ typeMessageCreated ∧ c5Payload.updateType ≠ typeMessageEdited) →
        variantMessage u = none ∧ variantFields u = c5Payload.fields)) :=
  ⟨by decide, by decide, c5_closed_set_decode c5Payload (by decide) rfl (by decide)⟩

/-- Claim C6: an update payload whose envelope decodes but whose tag is
outside the closed update set fails with the unknown-type error naming
the observed tag, and in the batch delivery of the retrieval loop this
skips only that single payload: the other payloads of the batch are
still decoded and delivered, and delivery itself never aborts. -/
theorem c6_unknown_update_skips_one (p : UpdatePayload)
    (xs ys : List RawUpdate) (h : p.updateType ∉ updateTypeMapKeys) :
    bytesToProperUpdate false (.payload p) =
      .error (.unknownUpdateType p.updateType) ∧
    deliverBatch false (xs ++ .payload p :: ys) =
      deliverBatch false xs ++ deliverBatch false ys := by
  have hnone := constructTypedUpdate_eq_none p.updateType p
    (if false = true then rawUpdateString (.payload p) else "") h
  have hone : bytesToProperUpdate false (.payload p) =
      .error (.unknownUpdateType p.updateType) := by
    simp only [bytesToProperUpdate]
    rw [hnone]
  refine ⟨hone, ?_⟩
  simp [deliverBatch, List.filterMap_append, List.filterMap_cons, hone,
    Except.toOption]

/-- An unknown-tag payload for the C6 witness. -/
def c6Payload : UpdatePayload :=
  { updateType := "unknown", timestamp := 0, message := none,
    fields := [], typedOk := true }

/-- A decodable bot-started payload for the C6 witness. -/
def c6Good : UpdatePayload :=
  { updateType := "bot_started", timestamp := 1, message := none,
    fields := [], typedOk := true }

/-- Witness for C6: an unknown-tag payload between two good ones is the
only one skipped. -/
theorem c6_unknown_update_skips_one_witness :
    ("unknown" ∉ updateTypeMapKeys) ∧
    (bytesToProperUpdate false (.payload c6Payload) =
        .error (.unknownUpdateType "unknown") ∧
      deliverBatch false ([.payload c6Good] ++ .payload c6Payload :: [.payload c6Good]) =
        deliverBatch false [.payload c6Good] ++ deliverBatch false [.payload c6Good]) :=
  ⟨by decide,
    c6_unknown_update_skips_one c6Payload [.payload c6Good] [.payload c6Good]
      (by decide)⟩

/-- Claim C1 (the code contradicts it): a transport-layer timeout on the
long-poll request is not mapped to the empty update list.  requestReader
returns a freshly created TimeoutError whose operation field is
"GET updates", never the errLongPollTimeout sentinel getUpdates compares
against, so the sentinel check cannot fire: getUpdates returns a wrapped
error, never the empty list, and the timeout consumes all attempts of
getUpdatesWithRetry like any other failure. -/
theorem c1_timeout_counted_as_failed_attempt (ct : String)
    (p : UpdatesParams) :
    getUpdates p ct .timeout =
      .error (.getUpdatesFailed
        (.timeoutError "GET updates"
          ("request timeout exceeded (" ++ ct ++ ")"))) ∧
    (getUpdatesWithRetry (fun _ => getUpdates p ct .timeout)
        (fun _ => false)).result =
      .error (.failedAfterAttempts 3
        (.getUpdatesFailed
          (.timeoutError "GET updates"
            ("request timeout exceeded (" ++ ct ++ ")")))) ∧
    ∀ ul, getUpdates p ct .timeout ≠ .ok ul := by
  have h1 : getUpdates p ct .timeout =
      .error (.getUpdatesFailed
        (.timeoutError "GET updates"
          ("request timeout exceeded (" ++ ct ++ ")"))) := rfl
  refine ⟨h1, rfl, ?_⟩
  intro ul h
  rw [h1] at h
  exact Except.noConfusion h

/-- Fetch behaviour for the C2 counterexample: three consecutive
transport failures, then success. -/
def c2FailThriceFetch : Nat → Except ApiError UpdateList :=
  fun n =>
    if n < 3 then .error (.networkError "GET updates")
    else .ok { updates := [], marker := some 1 }

/-- Counterexample to C2 as stated: given three consecutive transport
failures followed by a success, getUpdatesWithRetry does not perform
three retries with waits 1s, 2s, 4s and return the successful batch — it
stops after three total attempts, having waited only 1s and 2s, and
returns an error. -/
theorem c2_counterexample :
    (getUpdatesWithRetry c2FailThriceFetch (fun _ => false)).waits = [1, 2] ∧
    (getUpdatesWithRetry c2FailThriceFetch (fun _ => false)).result =
      .error (.failedAfterAttempts 3 (.networkError "GET updates")) ∧
    (getUpdatesWithRetry c2FailThriceFetch (fun _ => false)).waits ≠ [1, 2, 4] :=
  ⟨rfl, rfl, by decide⟩

/-- Claim C2 (amended): getUpdatesWithRetry makes at most three total
attempts, i.e. two retries with backoff waits of 1s then 2s (doubling),
each wait interruptible by cancellation; two failures followed by a
success yield the successful batch after waits 1s, 2s; three consecutive
failures exhaust the attempts and surface a wrapped error, and an
erroring batch never terminates the outer loop, which proceeds with the
remaining ticks. -/
theorem c2_retry_schedule (fetch : Nat → Except ApiError UpdateList)
    (ul : UpdateList) (e0 e1 e2 : ApiError)
    (h0 : fetch 0 = .error e0) (h1 : fetch 1 = .error e1) :
    (fetch 2 = .ok ul →
      (getUpdatesWithRetry fetch (fun _ => false)).result = .ok ul ∧
      (getUpdatesWithRetry fetch (fun _ => false)).waits = [1, 2]) ∧
    (fetch 2 = .error e2 →
      (getUpdatesWithRetry fetch (fun _ => false)).result =
        .error (.failedAfterAttempts 3 e2) ∧
      (getUpdatesWithRetry fetch (fun _ => false)).waits = [1, 2]) ∧
    ((getUpdatesWithRetry fetch (fun _ => true)).result =
        .error .ctxCanceled ∧
      (getUpdatesWithRetry fetch (fun _ => true)).waits = []) ∧
    (∀ (e : ApiError) (rest : List (List (Except ApiError UpdateList)))
        (m : Int),
      retrievalTicks false ([.error e] :: rest) m =
        retrievalTicks false rest m) := by
  refine ⟨?_, ?_, ?_, ?_⟩
  · intro h2
    constructor <;>
      simp [getUpdatesWithRetry, retryGo, maxRetries, h0, h1, h2]
  · intro h2
    constructor <;>
      simp [getUpdatesWithRetry, retryGo, maxRetries, h0, h1, h2]
  · constructor <;> simp [getUpdatesWithRetry, retryGo, maxRetries, h0]
  · intro e rest m
    simp [retrievalTicks, innerDrain]

/-- Fetch behaviour for the C2 witness: two failures, then success. -/
def c2TwoFailFetch : Nat → Except ApiError UpdateList :=
  fun n =>
    if n < 2 then .error (.networkError "GET updates")
    else .ok { updates := [], marker := some 1 }

/-- Witness for C2 (amended) at a concrete fetch sequence. -/
theorem c2_retry_schedule_witness :
    c2TwoFailFetch 0 = .error (.networkError "GET updates") ∧
    c2TwoFailFetch 2 = .ok { updates := [], marker := some 1 } ∧
    (getUpdatesWithRetry c2TwoFailFetch (fun _ => false)).result =
      .ok { updates := [], marker := some 1 } ∧
    (getUpdatesWithRetry c2TwoFailFetch (fun _ => false)).waits = [1, 2] :=
  ⟨rfl, rfl,
    ((c2_retry_schedule c2TwoFailFetch { updates := [], marker := some 1 }
      (.networkError "GET updates") (.networkError "GET updates")
      (.networkError "GET updates") rfl rfl).1 rfl).1,
    ((c2_retry_schedule c2TwoFailFetch { updates := [], marker := some 1 }
      (.networkError "GET updates") (.networkError "GET updates")
      (.networkError "GET updates") rfl rfl).1 rfl).2⟩

/-- Unfolding of one non-empty successful drain iteration. -/
theorem innerDrain_cons_ok (debug : Bool) (ul : UpdateList)
    (rest : List (Except ApiError UpdateList)) (m0 : Int)
    (he : ul.updates.isEmpty = false) :
    innerDrain debug (.ok ul :: rest) m0 =
      { marker := (innerDrain debug rest (markerAfterBatch m0 ul)).marker,
        delivered := deliverBatch debug ul.updates ++
          (innerDrain debug rest (markerAfterBatch m0 ul)).delivered,
        trace := markerAfterBatch m0 ul ::
          (innerDrain debug rest (markerAfterBatch m0 ul)).trace,
        errored := (innerDrain debug rest (markerAfterBatch m0 ul)).errored } := by
  simp [innerDrain, he]

/-- The cursor trace of a drain is a ≤-chain whenever the endpoint's
reported markers are. -/
theorem innerDrain_trace_chain (debug : Bool)
    (script : List (Except ApiError UpdateList)) :
    ∀ m0 : Int,
      List.Chain' (fun a b : Int => a ≤ b) (m0 :: reportedMarkers script) →
      List.Chain' (fun a b : Int => a ≤ b)
        (m0 :: (innerDrain debug script m0).trace) := by
  induction script with
  | nil => intro m0 _; simp [innerDrain]
  | cons r rest ih =>
    intro m0 h
    cases r with
    | error e => simp [innerDrain]
    | ok ul =>
      cases he : ul.updates.isEmpty with
      | true => simp [innerDrain, he]
      | false =>
        rw [innerDrain_cons_ok debug ul rest m0 he]
        cases hm : ul.marker with
        | none =>
          have hr : reportedMarkers (.ok ul :: rest) = reportedMarkers rest := by
            simp [reportedMarkers, he, hm]
          rw [hr] at h
          have h3 := ih m0 h
          have hmb : markerAfterBatch m0 ul = m0 := by
            simp [markerAfterBatch, hm]
          rw [hmb]
          dsimp only
          exact List.chain'_cons.mpr ⟨le_refl m0, h3⟩
        | some mk =>
          have hr : reportedMarkers (.ok ul :: rest) =
              mk :: reportedMarkers rest := by
            simp [reportedMarkers, he, hm]
          rw [hr] at h
          obtain ⟨hle, h2⟩ := List.chain'_cons.mp h
          have h3 := ih mk h2
          have hmb : markerAfterBatch m0 ul = mk := by
            simp [markerAfterBatch, hm]
          rw [hmb]
          dsimp only
          exact List.chain'_cons.mpr ⟨hle, h3⟩

/-- Counterexample to C3 as stated: a successfully retrieved empty batch
reporting marker 5 does not update the cursor — the drain breaks on the
empty batch before the marker update, leaving the cursor at 0. -/
theorem c3_counterexample :
    (innerDrain false [.ok { updates := [], marker := some 5 }] 0).marker = 0 ∧
    (innerDrain false [.ok { updates := [], marker := some 5 }] 0).errored = false ∧
    ((0 : Int) ≠ 5) :=
  ⟨rfl, rfl, by decide⟩

/-- Claim C3 (amended): the cursor starts at zero; every successfully
retrieved non-empty batch carrying a marker sets the cursor to that
marker; an empty batch ends the drain without touching the cursor; and
assuming the endpoint reports non-decreasing markers starting at or
above zero, the sequence of cursor values is monotonically
non-decreasing (never rolled back). -/
theorem c3_cursor_monotone (script : List (Except ApiError UpdateList))
    (h : List.Chain' (fun a b : Int => a ≤ b)
      ((0 : Int) :: reportedMarkers script)) :
    List.Chain' (fun a b : Int => a ≤ b)
      ((0 : Int) :: (innerDrain false script 0).trace) ∧
    (∀ (m mk : Int) (us : List RawUpdate)
        (rest : List (Except ApiError UpdateList)), us ≠ [] →
      (innerDrain false (.ok { updates := us, marker := some mk } :: rest)
          m).trace.head? = some mk) ∧
    (∀ (m mk : Int) (rest : List (Except ApiError UpdateList)),
      (innerDrain false (.ok { updates := [], marker := some mk } :: rest)
          m).marker = m) := by
  refine ⟨innerDrain_trace_chain false script 0 h, ?_, ?_⟩
  · intro m mk us rest hus
    have he : (UpdateList.mk us (some mk)).updates.isEmpty = false := by
      cases us with
      | nil => exact absurd rfl hus
      | cons a l => rfl
    rw [innerDrain_cons_ok false _ rest m he]
    simp [markerAfterBatch]
  · intro m mk rest
    simp [innerDrain]

/-- Script for the C3 witness: a non-empty batch reporting marker 3, then
the empty batch ending the drain. -/
def c3Script : List (Except ApiError UpdateList) :=
  [.ok { updates := [.malformed], marker := some 3 },
   .ok { updates := [], marker := some 3 }]

/-- Witness for C3 (amended) on a concrete script. -/
theorem c3_cursor_monotone_witness :
    List.Chain' (fun a b : Int => a ≤ b)
      ((0 : Int) :: reportedMarkers c3Script) ∧
    (List.Chain' (fun a b : Int => a ≤ b)
      ((0 : Int) :: (innerDrain false c3Script 0).trace) ∧
    (∀ (m mk : Int) (us : List RawUpdate)
        (rest : List (Except ApiError UpdateList)), us ≠ [] →
      (innerDrain false (.ok { updates := us, marker := some mk } :: rest)
          m).trace.head? = some mk) ∧
    (∀ (m mk : Int) (rest : List (Except ApiError UpdateList)),
      (innerDrain false (.ok { updates := [], marker := some mk } :: rest)
          m).marker = m)) :=
  ⟨by simp [c3Script, reportedMarkers, List.chain'_cons],
    c3_cursor_monotone c3Script
      (by simp [c3Script, reportedMarkers, List.chain'_cons])⟩

/-- Claim C9: the webhook handler answers 405 to any non-POST request,
400 on a body read failure, 400 on a decode failure with nothing
enqueued, 503 on a full queue without blocking, and 200 with the decoded
event enqueued otherwise; the push is the non-blocking select with a
default branch, modelled by the immediate full-queue answer. -/
theorem c9_webhook_handler (debug : Bool) (req : WebhookRequest)
    (q : WebhookQueue) :
    (req.method ≠ "POST" → getHandler debug req q = (405, q)) ∧
    (∀ e, req.method = "POST" → req.bodyRead = .error e →
      getHandler debug req q = (400, q)) ∧
    (∀ data e, req.method = "POST" → req.bodyRead = .ok data →
      bytesToProperUpdate debug data = .error e →
      getHandler debug req q = (400, q)) ∧
    (∀ data u, req.method = "POST" → req.bodyRead = .ok data →
      bytesToProperUpdate debug data = .ok u →
      ¬ q.items.length < q.capacity →
      getHandler debug req q = (503, q)) ∧
    (∀ data u, req.method = "POST" → req.bodyRead = .ok data →
      bytesToProperUpdate debug data = .ok u →
      q.items.length < q.capacity →
      getHandler debug req q = (200, { q with items := q.items ++ [u] })) := by
  refine ⟨?_, ?_, ?_, ?_, ?_⟩
  · intro hm
    simp [getHandler, hm]
  · intro e hm hb
    simp [getHandler, hm, hb]
  · intro data e hm hb hd
    simp [getHandler, hm, hb, hd]
  · intro data u hm hb hd hq
    simp [getHandler, hm, hb, hd, hq]
  · intro data u hm hb hd hq
    simp [getHandler, hm, hb, hd, hq]

/-- A decodable bot-started payload for the C9 witness. -/
def c9GoodPayload : UpdatePayload :=
  { updateType := "bot_started", timestamp := 1, message := none,
    fields := [], typedOk := true }

/-- The event c9GoodPayload decodes to. -/
def c9Decoded : UpdateInterface :=
  .botStarted { updateType := "bot_started", timestamp := 1, debugRaw := "" } []

/-- Witness for C9 covering the 405, 400, 503 and 200 answers. -/
theorem c9_webhook_handler_witness :
    getHandler false { method := "GET", bodyRead := .error () }
        { capacity := 1, items := [] } =
      (405, { capacity := 1, items := [] }) ∧
    getHandler false { method := "POST", bodyRead := .ok .malformed }
        { capacity := 1, items := [] } =
      (400, { capacity := 1, items := [] }) ∧
    getHandler false { method := "POST", bodyRead := .ok (.payload c9GoodPayload) }
        { capacity := 0, items := [] } =
      (503, { capacity := 0, items := [] }) ∧
    getHandler false { method := "POST", bodyRead := .ok (.payload c9GoodPayload) }
        { capacity := 1, items := [] } =
      (200, { capacity := 1, items := [c9Decoded] }) :=
  ⟨(c9_webhook_handler false _ _).1 (by decide),
   (c9_webhook_handler false _ _).2.2.1 .malformed .unmarshalBaseUpdate rfl rfl rfl,
   (c9_webhook_handler false _ _).2.2.2.1 (.payload c9GoodPayload) c9Decoded
     rfl rfl rfl (by decide),
   (c9_webhook_handler false _ _).2.2.2.2 (.payload c9GoodPayload) c9Decoded
     rfl rfl rfl (by decide)⟩

/-- Mapping the repeated "types" entries back to their values. -/
theorem filterMap_types (l : List String) :
    l.filterMap
      ((fun kv : String × String => if kv.1 = "types" then some kv.2 else none) ∘
        fun t => (("types" : String), t)) = l := by
  induction l with
  | nil => rfl
  | cons a l ih => simp [ih]

/-- Claim C10: in the poll query built by getUpdates, limit, timeout and
marker are included exactly when positive — in particular the very first
request (cursor zero) carries no marker — while every entry of Types is
always added as a repeated types parameter. -/
theorem c10_query_params (p : UpdatesParams) :
    (("limit" ∈ (buildUpdatesQuery p).map Prod.fst) ↔ 0 < p.limit) ∧
    (("timeout" ∈ (buildUpdatesQuery p).map Prod.fst) ↔ 0 < p.timeoutSec) ∧
    (("marker" ∈ (buildUpdatesQuery p).map Prod.fst) ↔ 0 < p.marker) ∧
    ((buildUpdatesQuery p).filterMap
      (fun kv => if kv.1 = "types" then some kv.2 else none) = p.types) ∧
    ("marker" ∉ (buildUpdatesQuery
      { limit := p.limit, timeoutSec := p.timeoutSec, marker := 0,
        types := p.types }).map Prod.fst) := by
  by_cases hl : 0 < p.limit <;> by_cases ht : 0 < p.timeoutSec <;>
    by_cases hm : 0 < p.marker <;>
      simp [buildUpdatesQuery, hl, ht, hm, filterMap_types]

/-- Witness for C10 at the parameters the loop uses for its first
request: limit 50, the configured timeout, cursor zero. -/
theorem c10_query_params_witness :
    ("marker" ∉ (buildUpdatesQuery
      { limit := 50, timeoutSec := 30, marker := 0,
        types := ["message_created"] }).map Prod.fst) ∧
    (("limit" ∈ (buildUpdatesQuery
      { limit := 50, timeoutSec := 30, marker := 0,
        types := ["message_created"] }).map Prod.fst) ↔ (0 : Int) < 50) :=
  ⟨(c10_query_params
      { limit := 50, timeoutSec := 30, marker := 0,
        types := ["message_created"] }).2.2.2.2,
   (c10_query_params
      { limit := 50, timeoutSec := 30, marker := 0,
        types := ["message_created"] }).1⟩

end Maxbot
